import Mathlib

/-!
Verification development for the `lights-http` service: a shallow embedding of
the request pipeline and multi-device command orchestration layer, translated
from the Go sources (`handlers/lights.go`, `handlers` health handler,
`middleware` logging/metrics, `main.go`), together with theorems settling the
specification's claims about it.
-/

namespace LightsHttp

/-! ## HTTP response model

`Body` distinguishes the two ways the Go code writes a response body:
`http.Error` writes a plain-text line (with a trailing newline, via
`fmt.Fprintln`), and `json.NewEncoder(w).Encode(map[string]string{...})`
writes a one-field JSON object, modelled as its key/value list. -/

inductive Body where
  | text (s : String)
  | jsonObj (fields : List (String × String))
  deriving DecidableEq, Repr

structure HttpResponse where
  status : Nat
  headers : List (String × String)
  body : Body
  deriving DecidableEq, Repr

/-! ## JSON request bodies

Abstraction of `json.Decoder.Decode` into a struct of `int` fields:
a `malformed` body is one on which `Decode` returns an error; a well-formed
body is the list of integer fields it carries, in document order.  Go's
decoder processes keys in order and later duplicates overwrite earlier ones,
and a field absent from the document leaves the struct field at its zero
value `0`. -/

inductive JsonBody where
  | malformed
  | object (fields : List (String × Int))
  deriving DecidableEq, Repr

/-- Last binding of `key` in a field list (Go's decoder lets a later duplicate
key overwrite an earlier one). -/
def lookupLast (fields : List (String × Int)) (key : String) : Option Int :=
  match fields with
  | [] => none
  | (k, v) :: rest =>
    match lookupLast rest key with
    | some w => some w
    | none => if k = key then some v else none

/-- Value decoded into an `int` struct field: the last occurrence in the
document, or the zero value `0` when the field is absent. -/
def decodeIntField (fields : List (String × Int)) (key : String) : Int :=
  (lookupLast fields key).getD 0

/-- `parseAndValidateJSON` (handlers/lights.go): decode the request body,
returning `none` exactly when `Decode` errors (the handler then answers
400 "Invalid JSON" and returns early). -/
def parseAndValidateJSON : JsonBody → Option (List (String × Int))
  | .malformed => none
  | .object fields => some fields

/-! ## Devices, commands and the fan-out executor

A device is identified by its `DeviceID()` string.  The Go handlers pass
`executeLightOperation` a closure over one logical command; following the
spec's §9 note we make that command an explicit tagged value, and the Device
Registry collaborator an explicit function from device and command to an
optional error (`none` = the device call succeeded, `some e` = it failed with
error `e`). -/

inductive Command where
  | power (isOn : Bool)
  | color (r g b : Int)
  | brightness (v : Int)
  | colortemp (kelvin : Int)
  deriving DecidableEq, Repr

/-- External Device Registry behaviour: per-device, per-command result. -/
abbrev Registry : Type := String → Command → Option String

/-- One per-device outcome of a fan-out operation (spec §3
`DeviceCommandOutcome`). -/
structure DeviceCommandOutcome where
  deviceID : String
  cmd : Command
  succeeded : Bool
  err : Option String
  deriving DecidableEq, Repr

/-- Observable events of the fan-out loop in `executeLightOperation`:
a device call (carrying its outcome) or the fixed 100 ms inter-device sleep. -/
inductive FanEvent where
  | call (o : DeviceCommandOutcome)
  | sleep (ms : Nat)
  deriving DecidableEq, Repr

/-- The outcome recorded for one device call. -/
def mkOutcome (registry : Registry) (cmd : Command) (d : String) :
    DeviceCommandOutcome :=
  { deviceID := d, cmd := cmd, succeeded := (registry d cmd).isNone,
    err := registry d cmd }

/-- The device loop of `executeLightOperation` (handlers/lights.go lines
57–72): visit every device in enumeration order, record whether its call
failed (an error only clears the `success` flag, it never aborts the loop),
and sleep 100 ms after each call except the last (`i < len(devices)-1`, i.e.
exactly when the device is not the last one).  `withDelay` gates the sleep so
that removing the delay is expressible; the source always runs with the delay
(`executeLightOperation` below). -/
def fanLoop (withDelay : Bool) (registry : Registry) (cmd : Command) :
    List String → List FanEvent × Bool
  | [] => ([], true)
  | d :: rest =>
    let tail := fanLoop withDelay registry cmd rest
    (FanEvent.call (mkOutcome registry cmd d) ::
       (if withDelay && !rest.isEmpty then [FanEvent.sleep 100] else []) ++ tail.1,
     (registry d cmd).isNone && tail.2)

/-- The per-device outcomes of a fan-out trace, in order. -/
def traceOutcomes (trace : List FanEvent) : List DeviceCommandOutcome :=
  trace.filterMap fun
    | .call o => some o
    | .sleep _ => none

/-- Whether an event is the inter-device sleep. -/
def isSleep : FanEvent → Bool
  | .sleep _ => true
  | .call _ => false

/-- `executeLightOperation` (handlers/lights.go lines 53–85): run the device
loop over all devices; if any device failed, answer 500 with the aggregate
error message, else answer 200 with the operation's success message.
Returned together with the trace of device calls and sleeps that the
execution performed. -/
def executeLightOperation (registry : Registry)
    (operationName successMessage : String)
    (devices : List String) (cmd : Command) : HttpResponse × List FanEvent :=
  let res := fanLoop true registry cmd devices
  if res.2 then
    ({ status := 200, headers := [],
       body := .jsonObj [("status", successMessage)] }, res.1)
  else
    ({ status := 500, headers := [],
       body := .jsonObj
         [("error", "failed to " ++ operationName ++ " some lights")] }, res.1)

/-! ## The validated handlers (handlers/lights.go) -/

/-- A 400 response as written by `http.Error` (text body plus newline). -/
def err400 (msg : String) : HttpResponse :=
  { status := 400, headers := [], body := .text (msg ++ "\n") }

/-- `RGB` (handlers/lights.go lines 129–156): decode `{r,g,b}`, reject out of
range channels with 400 before touching any device, otherwise fan the
`set_color` command out to every device. -/
def RGB (body : JsonBody) (registry : Registry) (devices : List String) :
    HttpResponse × List FanEvent :=
  match parseAndValidateJSON body with
  | none => (err400 "Invalid JSON", [])
  | some fields =>
    let r := decodeIntField fields "r"
    let g := decodeIntField fields "g"
    let b := decodeIntField fields "b"
    if r < 0 ∨ r > 255 ∨ g < 0 ∨ g > 255 ∨ b < 0 ∨ b > 255 then
      (err400 "RGB values must be between 0 and 255", [])
    else
      executeLightOperation registry "set_color" "lights set to rgb" devices
        (.color r g b)

/-- `ColorTemp` (handlers/lights.go lines 158–185): decode `{temperature}`,
reject values outside 2000–9000 with 400 before touching any device,
otherwise fan `set_color_temp` out. -/
def ColorTemp (body : JsonBody) (registry : Registry) (devices : List String) :
    HttpResponse × List FanEvent :=
  match parseAndValidateJSON body with
  | none => (err400 "Invalid JSON", [])
  | some fields =>
    let t := decodeIntField fields "temperature"
    if t < 2000 ∨ t > 9000 then
      (err400 "Color temperature must be between 2000K and 9000K", [])
    else
      executeLightOperation registry "set_color_temp" "color temperature set"
        devices (.colortemp t)

/-- `Brightness` (handlers/lights.go lines 187–209): decode `{brightness}`,
reject values outside 0–100 with 400 before touching any device, otherwise
fan `set_brightness` out. -/
def Brightness (body : JsonBody) (registry : Registry) (devices : List String) :
    HttpResponse × List FanEvent :=
  match parseAndValidateJSON body with
  | none => (err400 "Invalid JSON", [])
  | some fields =>
    let v := decodeIntField fields "brightness"
    if v < 0 ∨ v > 100 then
      (err400 "Brightness must be between 0 and 100", [])
    else
      executeLightOperation registry "set_brightness" "brightness set" devices
        (.brightness v)

/-! ## Health aggregation (handlers health handler)

`Check` mirrors the Go `Check` struct (`{status, detail}`); the map key of
`HealthStatus.Checks` is carried separately where needed.  The aggregation
loop only reads check statuses, so it is modelled over the list of checks
(Go iterates the map values in unspecified order; the properties proved below
hold for every enumeration order). -/

structure Check where
  status : String
  detail : String
  deriving DecidableEq, Repr

/-- The overall-status determination loop of `Health` (lines 70–80 of the
health handler): starting from accumulator `"ok"`, an `"error"` check settles
the result immediately (`break`); a `"warn"` check upgrades an `"ok"`
accumulator to `"warn"`; anything else leaves the accumulator unchanged. -/
def statusLoop : String → List Check → String
  | status, [] => status
  | status, c :: rest =>
    if c.status == "error" then "error"
    else if c.status == "warn" && status == "ok" then statusLoop "warn" rest
    else statusLoop status rest

/-- The `switch status` transport mapping of `Health` (lines 92–99): `"ok"`
and `"warn"` answer 200, `"error"` answers 503.  The Go switch has no default
case, in which case no `WriteHeader` runs and `net/http` supplies 200 on the
first body write. -/
def httpStatusOf (status : String) : Nat :=
  if status == "ok" then 200
  else if status == "warn" then 200
  else if status == "error" then 503
  else 200

/-- The checks map built by `Health` (lines 47–68), keyed by subsystem name:
an initialized controller reports `"ok"` whether or not devices are present
(only the detail differs); an uninitialized controller reports `"error"`. -/
def healthChecks (controllerInitialized : Bool) (deviceCount : Nat) :
    List (String × Check) :=
  if controllerInitialized then
    if deviceCount > 0 then
      [("controller",
        { status := "ok", detail := toString deviceCount ++ " devices connected" })]
    else
      [("controller",
        { status := "ok",
          detail := "Controller initialized, no devices currently connected" })]
  else
    [("controller", { status := "error", detail := "Controller not initialized" })]

/-- The body of the health response, mirroring the Go `HealthStatus` struct
(timestamp and uptime are wall-clock strings, taken as parameters). -/
structure HealthStatus where
  status : String
  timestamp : String
  uptime : String
  checks : List (String × Check)
  deriving DecidableEq, Repr

/-- `Health` (health handler lines 43–107): build the checks map, derive the
overall status with `statusLoop`, and answer with the mapped transport status
and the `HealthStatus` record. -/
def Health (controllerInitialized : Bool) (deviceCount : Nat)
    (timestamp uptime : String) : Nat × HealthStatus :=
  let checks := healthChecks controllerInitialized deviceCount
  let status := statusLoop "ok" (checks.map Prod.snd)
  (httpStatusOf status,
   { status := status, timestamp := timestamp, uptime := uptime, checks := checks })

/-! ## The middleware pipeline (middleware package and main.go)

Handlers are modelled as functions from a request to a response paired with
the list of observable instrumentation events the call performed, in order.
The composition in `main` is, for every `/lights/*` route,
`AuthMiddleware(token)(LoggingMiddleware(MetricsMiddleware(handler)))`, and
for `/health`, `/ready`, `/live` the same chain without the auth gate. -/

structure Request where
  method : String
  path : String
  authHeader : Option String
  requestID : String
  deriving DecidableEq, Repr

/-- Instrumentation events: the in-flight gauge increment/decrement
(`metrics.ActiveConnections`), the request count keyed by method, route and
final status (`metrics.HTTPRequestsTotal`), the duration observation keyed by
method and route (`metrics.HTTPRequestDuration`), and the execution of the
business handler itself. -/
inductive MEvent where
  | gaugeInc
  | gaugeDec
  | countObserved (method route status : String)
  | durationObserved (method route : String)
  | businessRan
  deriving DecidableEq, Repr

abbrev Handler := Request → HttpResponse × List MEvent

/-- A business handler, which performs no instrumentation of its own. -/
def liftHandler (f : Request → HttpResponse) : Handler :=
  fun req => (f req, [MEvent.businessRan])

/-- Modelled from the spec: the Authentication Gate's acceptance condition.
The implementation file (`middleware` auth source) is not among the provided
sources — only its test `TestAuthMiddleware` and its call sites in `main` are
— so this follows spec §4.2: accept iff the `Authorization` header is
present, carries the `Bearer ` scheme, and the value after the scheme equals
the configured token exactly (the spec's constant-time comparison has the
same value as equality). -/
def validAuth (token : String) : Option String → Bool
  | none => false
  | some h =>
    List.isPrefixOf "Bearer ".data h.data && (h.data.drop 7 == token.data)

/-- Modelled from the spec: `AuthMiddleware` (its source file is missing from
the provided sources; spec §4.2 and the expectations of `TestAuthMiddleware`).
On a valid credential it runs the wrapped handler; on any invalid credential
it answers 401 uniformly and the wrapped handler never runs. -/
def AuthMiddleware (token : String) (next : Handler) : Handler :=
  fun req =>
    if validAuth token req.authHeader then next req
    else ({ status := 401, headers := [], body := .text "Unauthorized\n" }, [])

/-- The entropy source behind `crypto/rand.Read` in `generateRequestID`: the
bytes it writes into the caller's buffer and the error it returns (which the
code discards). -/
structure EntropySource where
  bytes : List Nat
  err : Option String
  deriving DecidableEq, Repr

/-- Lower-case hex digit. -/
def hexDigit (n : Nat) : Char :=
  if n < 10 then Char.ofNat (48 + n) else Char.ofNat (87 + n)

/-- Two-digit lower-case hex rendering of one byte (`%x` on a byte). -/
def hexByte (b : Nat) : String :=
  String.mk [hexDigit (b / 16 % 16), hexDigit (b % 16)]

/-- The 4-byte buffer after `rand.Read`: `make([]byte, 4)` zero-initializes
it, and the reader overwrites however many bytes it produced. -/
def readBuffer (src : EntropySource) : List Nat :=
  (src.bytes.take 4) ++ List.replicate (4 - (src.bytes.take 4).length) 0

/-- `generateRequestID` (middleware logging source, lines 138–142): format
the buffer as 8 lower-case hex characters.  The error returned by
`rand.Read` is discarded by the source (`rand.Read(bytes)` with both return
values ignored), so the identifier is produced unconditionally. -/
def generateRequestID (src : EntropySource) : String :=
  String.join ((readBuffer src).map hexByte)

/-- `LoggingMiddleware.Middleware` (middleware logging source, lines 89–125):
generate the request ID, attach it to the request context and to the
`X-Request-ID` response header, and run the wrapped handler unconditionally. -/
def LoggingMiddleware (src : EntropySource) (next : Handler) : Handler :=
  fun req =>
    let rid := generateRequestID src
    let res := next { req with requestID := rid }
    ({ res.1 with headers := ("X-Request-ID", rid) :: res.1.headers }, res.2)

/-- `MetricsMiddleware.Middleware` (middleware metrics source, lines
168–188): increment the in-flight gauge, run the wrapped handler, record the
count (keyed by method, route and final status) and the duration observation,
and decrement the gauge on exit (`defer`). -/
def MetricsMiddleware (next : Handler) : Handler :=
  fun req =>
    let res := next req
    (res.1,
     MEvent.gaugeInc :: res.2 ++
       [MEvent.countObserved req.method req.path (toString res.1.status),
        MEvent.durationObserved req.method req.path,
        MEvent.gaugeDec])

/-- The middleware chain of every `/lights/*` route in `main` (part_002 lines
89–98): the auth gate wraps logging, which wraps metrics, which wraps the
business handler. -/
def lightsRoute (token : String) (src : EntropySource)
    (f : Request → HttpResponse) : Handler :=
  AuthMiddleware token (LoggingMiddleware src (MetricsMiddleware (liftHandler f)))

/-- The middleware chain of `/health`, `/ready` and `/live` in `main`
(part_002 lines 86–88): the same chain without the auth gate. -/
def healthRoute (src : EntropySource) (f : Request → HttpResponse) : Handler :=
  LoggingMiddleware src (MetricsMiddleware (liftHandler f))

/-! ## The response writer and the xkcd redirect wrapper (main.go)

`net/http` commits the status line and a snapshot of the header map on the
FIRST `WriteHeader` call; later `WriteHeader` calls are superfluous and
ignored, and later mutations of the header map are never sent.  `Writer`
models exactly that; `WOp` is the sequence of writer operations a handler
performs, and the `statusRecorder` of `main.go` forwards every operation to
the underlying writer while separately recording the last status code passed
to `WriteHeader`. -/

structure Writer where
  committed : Option (Nat × List (String × String))
  liveHeaders : List (String × String)
  body : String
  deriving DecidableEq, Repr

def emptyWriter : Writer := { committed := none, liveHeaders := [], body := "" }

/-- `Header().Set(k, v)`: replace any binding of `k` in the live header map. -/
def setHeader (w : Writer) (k v : String) : Writer :=
  { w with liveHeaders := (k, v) :: w.liveHeaders.filter (fun p => p.1 ≠ k) }

/-- `WriteHeader(code)`: commit status and header snapshot on first call,
ignore superfluous later calls. -/
def writeHeader (w : Writer) (code : Nat) : Writer :=
  match w.committed with
  | some _ => w
  | none => { w with committed := some (code, w.liveHeaders) }

/-- `Write(s)`: an implicit `WriteHeader(200)` if nothing is committed yet,
then append to the body. -/
def writeBody (w : Writer) (s : String) : Writer :=
  let w' := writeHeader w 200
  { w' with body := w'.body ++ s }

/-- One operation a handler performs against the response writer. -/
inductive WOp where
  | setHdr (k v : String)
  | wHeader (code : Nat)
  | wWrite (s : String)
  deriving DecidableEq, Repr

/-- Run a handler's writer operations through the `statusRecorder` of
`main.go`: every operation is forwarded to the underlying writer, and
`WriteHeader` additionally updates the recorder's `status` field (initially
200). -/
def runOps : Writer × Nat → List WOp → Writer × Nat
  | st, [] => st
  | (w, recStatus), op :: rest =>
    match op with
    | .setHdr k v => runOps (setHeader w k v, recStatus) rest
    | .wHeader code => runOps (writeHeader w code, code) rest
    | .wWrite s => runOps (writeBody w s, recStatus) rest

/-- The writer operations of `http.Error(w, msg, code)`: set the plain-text
content type headers, write the header, print the message with a newline. -/
def httpErrorOps (msg : String) (code : Nat) : List WOp :=
  [.setHdr "Content-Type" "text/plain; charset=utf-8",
   .setHdr "X-Content-Type-Options" "nosniff",
   .wHeader code,
   .wWrite (msg ++ "\n")]

/-- The writer operations of `http.NotFound` (what the mux performs on an
unmatched route): `http.Error(w, "404 page not found", 404)`. -/
def notFoundOps : List WOp := httpErrorOps "404 page not found" 404

/-- The writer operations of `http.Redirect(w, r, url, 302)` on a GET
request: set `Location` (and the html content type), write the header, write
the hyperlink body. -/
def redirectOps (url : String) (code : Nat) : List WOp :=
  [.setHdr "Location" url,
   .setHdr "Content-Type" "text/html; charset=utf-8",
   .wHeader code,
   .wWrite ("<a href=\"" ++ url ++ "\">Found</a>.\n")]

/-- The wrapper handler of `main.go` (lines 81–88) / part_002 (lines
104–111): run the mux through a pass-through `statusRecorder`, and if the
recorded status is 404 or 401, call `http.Redirect` to
`https://xkcd.com/random/` on the same underlying writer. -/
def apiHandler (muxOps : List WOp) (w0 : Writer) : Writer :=
  let res := runOps (w0, 200) muxOps
  if res.2 = 404 ∨ res.2 = 401 then
    (runOps (res.1, res.2) (redirectOps "https://xkcd.com/random/" 302)).1
  else res.1

/-- The status the client observes: the committed one (or none if the
response never got past the header phase). -/
def committedStatus (w : Writer) : Option Nat := w.committed.map Prod.fst

/-- The headers the client observes: the snapshot committed with the status. -/
def committedHeaders (w : Writer) : List (String × String) :=
  (w.committed.map Prod.snd).getD []

/-! ## Helper lemmas about the fan-out loop -/

theorem fanLoop_success_eq_all (withDelay : Bool) (registry : Registry)
    (cmd : Command) (devices : List String) :
    (fanLoop withDelay registry cmd devices).2
      = devices.all (fun d => (registry d cmd).isNone) := by
  induction devices with
  | nil => rfl
  | cons d rest ih => simp [fanLoop, ih]

theorem fanLoop_outcomes (withDelay : Bool) (registry : Registry)
    (cmd : Command) (devices : List String) :
    traceOutcomes (fanLoop withDelay registry cmd devices).1
      = devices.map (mkOutcome registry cmd) := by
  induction devices with
  | nil => rfl
  | cons d rest ih =>
    cases rest with
    | nil => simp [fanLoop, traceOutcomes]
    | cons d' rest' =>
      cases withDelay with
      | true => simpa [fanLoop, traceOutcomes] using ih
      | false => simpa [fanLoop, traceOutcomes] using ih

theorem fanLoop_noDelay_trace (registry : Registry) (cmd : Command)
    (devices : List String) :
    (fanLoop false registry cmd devices).1
      = devices.map (fun d => FanEvent.call (mkOutcome registry cmd d)) := by
  induction devices with
  | nil => rfl
  | cons d rest ih => simp [fanLoop, ih]

theorem fanLoop_trace_intersperse (registry : Registry) (cmd : Command)
    (devices : List String) :
    (fanLoop true registry cmd devices).1
      = List.intersperse (FanEvent.sleep 100)
          ((fanLoop false registry cmd devices).1) := by
  rw [fanLoop_noDelay_trace]
  induction devices with
  | nil => rfl
  | cons d rest ih =>
    cases rest with
    | nil => rfl
    | cons d' rest' =>
      simp only [List.map_cons] at ih ⊢
      show FanEvent.call (mkOutcome registry cmd d) :: FanEvent.sleep 100 ::
            (fanLoop true registry cmd (d' :: rest')).1
          = FanEvent.call (mkOutcome registry cmd d) :: FanEvent.sleep 100 ::
            List.intersperse (FanEvent.sleep 100)
              (FanEvent.call (mkOutcome registry cmd d') ::
                List.map (fun x => FanEvent.call (mkOutcome registry cmd x)) rest')
      rw [ih]

theorem fanLoop_sleep_count (registry : Registry) (cmd : Command)
    (devices : List String) :
    ((fanLoop true registry cmd devices).1.countP (fun e => isSleep e))
      = devices.length - 1 := by
  induction devices with
  | nil => rfl
  | cons d rest ih =>
    cases rest with
    | nil => rfl
    | cons d' rest' =>
      simp only [fanLoop, List.isEmpty_cons, Bool.not_false, Bool.and_self,
        if_pos, List.countP_cons, List.countP_append] at ih ⊢
      simp only [List.countP_cons, isSleep] at ih ⊢
      simp [fanLoop] at ih ⊢
      omega

theorem executeLightOperation_trace (registry : Registry)
    (operationName successMessage : String) (devices : List String)
    (cmd : Command) :
    (executeLightOperation registry operationName successMessage devices cmd).2
      = (fanLoop true registry cmd devices).1 := by
  cases h : (fanLoop true registry cmd devices).2 <;>
    simp [executeLightOperation, h]

theorem executeLightOperation_error (registry : Registry)
    (operationName successMessage : String) (devices : List String)
    (cmd : Command) (h : (fanLoop true registry cmd devices).2 = false) :
    (executeLightOperation registry operationName successMessage devices cmd).1
      = { status := 500, headers := [],
          body := .jsonObj
            [("error", "failed to " ++ operationName ++ " some lights")] } := by
  simp [executeLightOperation, h]

theorem executeLightOperation_ok (registry : Registry)
    (operationName successMessage : String) (devices : List String)
    (cmd : Command) (h : (fanLoop true registry cmd devices).2 = true) :
    (executeLightOperation registry operationName successMessage devices cmd).1
      = { status := 200, headers := [],
          body := .jsonObj [("status", successMessage)] } := by
  simp [executeLightOperation, h]

/-! ## Helper lemmas about health aggregation -/

theorem statusLoop_warn (checks : List Check) :
    statusLoop "warn" checks
      = if checks.any (fun c => c.status == "error") then "error"
        else "warn" := by
  induction checks with
  | nil => rfl
  | cons c rest ih =>
    by_cases h : c.status = "error"
    · simp [statusLoop, h]
    · simp [statusLoop, h, ih]

theorem statusLoop_ok (checks : List Check) :
    statusLoop "ok" checks
      = if checks.any (fun c => c.status == "error") then "error"
        else if checks.any (fun c => c.status == "warn") then "warn"
        else "ok" := by
  induction checks with
  | nil => rfl
  | cons c rest ih =>
    by_cases he : c.status = "error"
    · simp [statusLoop, he]
    · by_cases hw : c.status = "warn"
      · simp [statusLoop, he, hw, statusLoop_warn]
      · simp [statusLoop, he, hw, ih]

/-! ## Claim theorems -/

/-- Claim C1: for every fan-out command operation, the aggregate
`overallSucceeded` flag (the `success` variable of `executeLightOperation`)
is true iff every per-device outcome succeeded; and fanning out over an empty
device set succeeds trivially: HTTP 200, the operation's success message, and
an empty outcome sequence. -/
theorem overallSucceeded_iff_all_outcomes (registry : Registry) (cmd : Command)
    (devices : List String) (operationName successMessage : String) :
    ((fanLoop true registry cmd devices).2 = true ↔
      ∀ o ∈ traceOutcomes (fanLoop true registry cmd devices).1,
        o.succeeded = true)
    ∧ executeLightOperation registry operationName successMessage [] cmd
      = ({ status := 200, headers := [],
           body := .jsonObj [("status", successMessage)] }, []) := by
  constructor
  · rw [fanLoop_success_eq_all, fanLoop_outcomes]
    simp [List.all_eq_true, mkOutcome]
  · rfl

/-- Witness for C1: with two healthy devices, the left-to-right content of the
equivalence is realized at a concrete input. -/
theorem overallSucceeded_iff_all_outcomes_witness :
    (fanLoop true (fun _ _ => none) (.power true) ["A", "B"]).2 = true :=
  (overallSucceeded_iff_all_outcomes (fun _ _ => none) (.power true)
    ["A", "B"] "turn_on" "lights turned on").1.mpr (by decide)

/-- Claim C2: a failure on one device does not abort the rest — every device
in the enumeration is attempted exactly once (the outcome sequence lists
exactly the enumerated devices, in order); the call always completes with a
response (200 or 500), and if at least one device fails it is the 500
aggregate-error response. -/
theorem fanout_continue_on_error (registry : Registry) (cmd : Command)
    (devices : List String) (operationName successMessage : String) :
    (traceOutcomes
        (executeLightOperation registry operationName successMessage devices
          cmd).2).map DeviceCommandOutcome.deviceID = devices
    ∧ ((executeLightOperation registry operationName successMessage devices
          cmd).1.status = 200
        ∨ (executeLightOperation registry operationName successMessage devices
            cmd).1.status = 500)
    ∧ ((∃ d ∈ devices, (registry d cmd).isSome = true) →
        (executeLightOperation registry operationName successMessage devices
            cmd).1
          = { status := 500, headers := [],
              body := .jsonObj
                [("error",
                  "failed to " ++ operationName ++ " some lights")] }) := by
  refine ⟨?_, ?_, ?_⟩
  · rw [executeLightOperation_trace, fanLoop_outcomes, List.map_map,
      show DeviceCommandOutcome.deviceID ∘ mkOutcome registry cmd = id from rfl,
      List.map_id]
  · cases h : (fanLoop true registry cmd devices).2
    · exact Or.inr (by
        rw [executeLightOperation_error registry operationName successMessage
          devices cmd h])
    · exact Or.inl (by
        rw [executeLightOperation_ok registry operationName successMessage
          devices cmd h])
  · rintro ⟨d, hd, hfail⟩
    refine executeLightOperation_error _ _ _ _ _ ?_
    rw [fanLoop_success_eq_all]
    cases hreg : registry d cmd with
    | none => rw [hreg] at hfail; simp at hfail
    | some e =>
      cases hall : devices.all (fun d => (registry d cmd).isNone) with
      | false => rfl
      | true =>
        rw [List.all_eq_true] at hall
        have := hall d hd
        rw [hreg] at this
        simp at this

/-- Witness for C2: two devices of which the second fails; both are attempted
and the aggregate response is the 500 error. -/
theorem fanout_continue_on_error_witness :
    (traceOutcomes
        (executeLightOperation
          (fun d _ => if d = "B" then some "boom" else none) "turn_off"
          "lights turned off" ["A", "B"] (.power false)).2).map
        DeviceCommandOutcome.deviceID = ["A", "B"]
    ∧ (executeLightOperation (fun d _ => if d = "B" then some "boom" else none)
          "turn_off" "lights turned off" ["A", "B"] (.power false)).1
        = { status := 500, headers := [],
            body := .jsonObj [("error", "failed to turn_off some lights")] } :=
  ⟨(fanout_continue_on_error
      (fun d _ => if d = "B" then some "boom" else none) (.power false)
      ["A", "B"] "turn_off" "lights turned off").1,
   (fanout_continue_on_error
      (fun d _ => if d = "B" then some "boom" else none) (.power false)
      ["A", "B"] "turn_off" "lights turned off").2.2 (by decide)⟩

/-- Claim C9: the fixed 100 ms delay is inserted exactly between successive
device calls — the delayed trace is the undelayed trace with one sleep
interspersed between consecutive calls, so no sleep before the first call,
none after the last, exactly `n - 1` sleeps for `n` devices (hence none for
`n ≤ 1`) — and removing the delay changes neither the per-device outcomes nor
the aggregate success flag. -/
theorem delay_between_successive_calls (registry : Registry) (cmd : Command)
    (devices : List String) :
    (fanLoop true registry cmd devices).1
      = List.intersperse (FanEvent.sleep 100)
          ((fanLoop false registry cmd devices).1)
    ∧ (fanLoop false registry cmd devices).1
      = devices.map (fun d => FanEvent.call (mkOutcome registry cmd d))
    ∧ (fanLoop true registry cmd devices).1.countP (fun e => isSleep e)
      = devices.length - 1
    ∧ traceOutcomes (fanLoop true registry cmd devices).1
      = traceOutcomes (fanLoop false registry cmd devices).1
    ∧ (fanLoop true registry cmd devices).2
      = (fanLoop false registry cmd devices).2 :=
  ⟨fanLoop_trace_intersperse registry cmd devices,
   fanLoop_noDelay_trace registry cmd devices,
   fanLoop_sleep_count registry cmd devices,
   by rw [fanLoop_outcomes, fanLoop_outcomes],
   by rw [fanLoop_success_eq_all, fanLoop_success_eq_all]⟩

/-- Claim C3: for `POST /lights/rgb`, `/lights/colortemp` and
`/lights/brightness`, a malformed JSON body or a numeric parameter outside
the inclusive documented range is rejected with 400 before any device is
contacted: the event trace is empty, so zero device calls are attempted and
the outcome sequence is empty. -/
theorem validation_precedes_fanout (registry : Registry)
    (devices : List String) (fields : List (String × Int)) :
    RGB .malformed registry devices = (err400 "Invalid JSON", [])
    ∧ ColorTemp .malformed registry devices = (err400 "Invalid JSON", [])
    ∧ Brightness .malformed registry devices = (err400 "Invalid JSON", [])
    ∧ ((decodeIntField fields "r" < 0 ∨ decodeIntField fields "r" > 255
          ∨ decodeIntField fields "g" < 0 ∨ decodeIntField fields "g" > 255
          ∨ decodeIntField fields "b" < 0 ∨ decodeIntField fields "b" > 255) →
        RGB (.object fields) registry devices
          = (err400 "RGB values must be between 0 and 255", []))
    ∧ ((decodeIntField fields "temperature" < 2000
          ∨ decodeIntField fields "temperature" > 9000) →
        ColorTemp (.object fields) registry devices
          = (err400 "Color temperature must be between 2000K and 9000K", []))
    ∧ ((decodeIntField fields "brightness" < 0
          ∨ decodeIntField fields "brightness" > 100) →
        Brightness (.object fields) registry devices
          = (err400 "Brightness must be between 0 and 100", [])) := by
  refine ⟨rfl, rfl, rfl, ?_, ?_, ?_⟩
  · intro h
    simp only [RGB, parseAndValidateJSON]
    rw [if_pos h]
  · intro h
    simp only [ColorTemp, parseAndValidateJSON]
    rw [if_pos h]
  · intro h
    simp only [Brightness, parseAndValidateJSON]
    rw [if_pos h]

/-- Witness for C3: concrete out-of-range bodies for all three handlers are
rejected with 400 and an empty trace. -/
theorem validation_precedes_fanout_witness :
    RGB (.object [("r", 256)]) (fun _ _ => none) ["A"]
      = (err400 "RGB values must be between 0 and 255", [])
    ∧ ColorTemp (.object [("temperature", 9001)]) (fun _ _ => none) ["A"]
      = (err400 "Color temperature must be between 2000K and 9000K", [])
    ∧ Brightness (.object [("brightness", -1)]) (fun _ _ => none) ["A"]
      = (err400 "Brightness must be between 0 and 100", []) :=
  ⟨(validation_precedes_fanout (fun _ _ => none) ["A"] [("r", 256)]).2.2.2.1
      (by decide),
   (validation_precedes_fanout (fun _ _ => none) ["A"]
      [("temperature", 9001)]).2.2.2.2.1 (by decide),
   (validation_precedes_fanout (fun _ _ => none) ["A"]
      [("brightness", -1)]).2.2.2.2.2 (by decide)⟩

/-- Claim C10: a well-formed JSON body that omits fields decodes them to the
zero value 0, which passes range validation, so `{}` fans out with
`r = g = b = 0` (resp. `brightness = 0`) — indistinguishable from an explicit
zero. -/
theorem absent_fields_decode_to_zero (registry : Registry)
    (devices : List String) :
    RGB (.object []) registry devices
      = RGB (.object [("r", 0), ("g", 0), ("b", 0)]) registry devices
    ∧ RGB (.object []) registry devices
      = executeLightOperation registry "set_color" "lights set to rgb" devices
          (.color 0 0 0)
    ∧ Brightness (.object []) registry devices
      = Brightness (.object [("brightness", 0)]) registry devices
    ∧ Brightness (.object []) registry devices
      = executeLightOperation registry "set_brightness" "brightness set"
          devices (.brightness 0) :=
  ⟨rfl, rfl, rfl, rfl⟩

/-- Claim C4: the overall health severity is derived by precedence — `error`
if any check is `error`, else `warn` if any check is `warn`, else `ok` — for
every set of subsystem checks (hence for every map enumeration order), and
the transport status maps `ok` and `warn` to 200 and `error` to 503; the
`Health` handler's transport status is exactly the mapping applied to its
derived overall status. -/
theorem health_severity_precedence (checks : List Check)
    (controllerInitialized : Bool) (deviceCount : Nat)
    (timestamp uptime : String) :
    statusLoop "ok" checks
      = (if checks.any (fun c => c.status == "error") then "error"
         else if checks.any (fun c => c.status == "warn") then "warn"
         else "ok")
    ∧ httpStatusOf "ok" = 200 ∧ httpStatusOf "warn" = 200
    ∧ httpStatusOf "error" = 503
    ∧ (httpStatusOf (statusLoop "ok" checks) = 503 ↔
        checks.any (fun c => c.status == "error") = true)
    ∧ (Health controllerInitialized deviceCount timestamp uptime).1
      = httpStatusOf
          ((Health controllerInitialized deviceCount timestamp uptime).2.status)
    ∧ (Health controllerInitialized deviceCount timestamp uptime).2.status
      = statusLoop "ok"
          ((healthChecks controllerInitialized deviceCount).map Prod.snd) := by
  refine ⟨statusLoop_ok checks, rfl, rfl, rfl, ?_, rfl, rfl⟩
  rw [statusLoop_ok checks]
  by_cases he : checks.any (fun c => c.status == "error") = true
  · simp [he, httpStatusOf]
  · by_cases hw : checks.any (fun c => c.status == "warn") = true
    · simp [he, hw, httpStatusOf]
    · simp [he, hw, httpStatusOf]

/-- Witness for C4: a single `error` check yields the 503 transport status. -/
theorem health_severity_precedence_witness :
    httpStatusOf
        (statusLoop "ok" [{ status := "error", detail := "down" }]) = 503 :=
  (health_severity_precedence [{ status := "error", detail := "down" }]
    true 0 "t" "u").2.2.2.2.1.mpr (by decide)

/-- Claim C5: every request with an invalid credential — missing header,
wrong scheme, or wrong token — is rejected by the Authentication Gate with
one and the same response, independent of the failure reason and of the
wrapped handler, and with an empty event list: the downstream business
handler never runs.  The gate implementation is modelled from spec section
4.2, its source file being absent from the provided sources. -/
theorem authGate_uniform_reject (token : String) (next : Handler)
    (req : Request) (h : validAuth token req.authHeader = false) :
    AuthMiddleware token next req
      = ({ status := 401, headers := [], body := .text "Unauthorized\n" },
         ([] : List MEvent)) := by
  simp [AuthMiddleware, h]

/-- Witness for C5: the three rejection reasons of `TestAuthMiddleware` —
missing header, missing scheme, wrong token — all produce the identical
reject result. -/
theorem authGate_uniform_reject_witness :
    AuthMiddleware "test-token"
        (liftHandler (fun _ => { status := 200, headers := [], body := .text "ok" }))
        { method := "GET", path := "/test", authHeader := none, requestID := "" }
      = ({ status := 401, headers := [], body := .text "Unauthorized\n" }, [])
    ∧ AuthMiddleware "test-token"
        (liftHandler (fun _ => { status := 200, headers := [], body := .text "ok" }))
        { method := "GET", path := "/test", authHeader := some "test-token",
          requestID := "" }
      = ({ status := 401, headers := [], body := .text "Unauthorized\n" }, [])
    ∧ AuthMiddleware "test-token"
        (liftHandler (fun _ => { status := 200, headers := [], body := .text "ok" }))
        { method := "GET", path := "/test",
          authHeader := some "Bearer wrong-token", requestID := "" }
      = ({ status := 401, headers := [], body := .text "Unauthorized\n" }, []) :=
  ⟨authGate_uniform_reject "test-token" _ _ (by decide),
   authGate_uniform_reject "test-token" _ _ (by decide),
   authGate_uniform_reject "test-token" _ _ (by decide)⟩

/-- Claim C6 counterexample: on a `/lights/*` route the Authentication Gate
is the OUTERMOST middleware (`main` composes
`AuthMiddleware(Logging(Metrics(handler)))`), so a rejected call never
reaches the Instrumentation Layer: at this concrete rejected request the
event list is empty — the in-flight gauge is never incremented and no
count or duration is recorded, contradicting the claim that instrumentation
wraps every inbound call including the gate's early rejection. -/
theorem instrumentation_bypassed_on_reject :
    (lightsRoute "secret" { bytes := [1, 2, 3, 4], err := none }
        (fun _ => { status := 200, headers := [], body := .text "ok" })
        { method := "POST", path := "/lights/on", authHeader := none,
          requestID := "" }).2 = ([] : List MEvent)
    ∧ MEvent.gaugeInc ∉
        (lightsRoute "secret" { bytes := [1, 2, 3, 4], err := none }
          (fun _ => { status := 200, headers := [], body := .text "ok" })
          { method := "POST", path := "/lights/on", authHeader := none,
            requestID := "" }).2 := by
  exact ⟨by decide, by decide⟩

/-- Claim C6 (amended): the Instrumentation Layer wraps every call that
reaches it — every health-route call and every lights-route call that passes
the Authentication Gate — incrementing the in-flight gauge on entry,
decrementing it on exit, and recording a count keyed by method, route and
final status plus a duration observation; a call the gate rejects bypasses
the layer entirely (nothing recorded), and on every path the gauge
increments and decrements balance, so it never leaks. -/
theorem instrumentation_wraps_reached_calls (token : String)
    (src : EntropySource) (f : Request → HttpResponse) (req : Request) :
    (validAuth token req.authHeader = true →
      (lightsRoute token src f req).2
        = [MEvent.gaugeInc, MEvent.businessRan,
           MEvent.countObserved req.method req.path
             (toString (f { req with requestID := generateRequestID src }).status),
           MEvent.durationObserved req.method req.path, MEvent.gaugeDec])
    ∧ (healthRoute src f req).2
      = [MEvent.gaugeInc, MEvent.businessRan,
         MEvent.countObserved req.method req.path
           (toString (f { req with requestID := generateRequestID src }).status),
         MEvent.durationObserved req.method req.path, MEvent.gaugeDec]
    ∧ (validAuth token req.authHeader = false →
        (lightsRoute token src f req).2 = [])
    ∧ (lightsRoute token src f req).2.count MEvent.gaugeInc
      = (lightsRoute token src f req).2.count MEvent.gaugeDec := by
  refine ⟨?_, ?_, ?_, ?_⟩
  · intro h
    simp [lightsRoute, AuthMiddleware, LoggingMiddleware, MetricsMiddleware,
      liftHandler, healthRoute, h]
  · simp [healthRoute, LoggingMiddleware, MetricsMiddleware, liftHandler]
  · intro h
    simp [lightsRoute, AuthMiddleware, h]
  · cases h : validAuth token req.authHeader with
    | false => simp [lightsRoute, AuthMiddleware, h]
    | true =>
      simp [lightsRoute, AuthMiddleware, LoggingMiddleware, MetricsMiddleware,
        liftHandler, h, List.count_cons]

/-- Witness for C6 (amended): concrete authenticated and rejected calls. -/
theorem instrumentation_wraps_reached_calls_witness :
    (lightsRoute "secret" { bytes := [1, 2, 3, 4], err := none }
        (fun _ => { status := 200, headers := [], body := .text "ok" })
        { method := "POST", path := "/lights/on",
          authHeader := some "Bearer secret", requestID := "" }).2
      = [MEvent.gaugeInc, MEvent.businessRan,
         MEvent.countObserved "POST" "/lights/on" "200",
         MEvent.durationObserved "POST" "/lights/on", MEvent.gaugeDec]
    ∧ (lightsRoute "secret" { bytes := [1, 2, 3, 4], err := none }
        (fun _ => { status := 200, headers := [], body := .text "ok" })
        { method := "POST", path := "/lights/off", authHeader := none,
          requestID := "" }).2 = [] :=
  ⟨(instrumentation_wraps_reached_calls "secret"
      { bytes := [1, 2, 3, 4], err := none }
      (fun _ => { status := 200, headers := [], body := .text "ok" })
      { method := "POST", path := "/lights/on",
        authHeader := some "Bearer secret", requestID := "" }).1 (by decide),
   (instrumentation_wraps_reached_calls "secret"
      { bytes := [1, 2, 3, 4], err := none }
      (fun _ => { status := 200, headers := [], body := .text "ok" })
      { method := "POST", path := "/lights/off", authHeader := none,
        requestID := "" }).2.2.1 (by decide)⟩

/-- Claim C7 (code bug): the xkcd redirect is never observed by the client.
The `statusRecorder` of `main.go` forwards every write to the underlying
connection, so by the time the wrapper sees a recorded 404 (unmatched route)
or 401 (auth reject), the status and header block are already committed;
`http.Redirect`'s `WriteHeader(302)` is a superfluous second call that
`net/http` ignores, and its `Location` header lands only in the live header
map, after the committed snapshot.  The client therefore observes the bare
404/401 with no `Location` header — the redirect only mutated state that is
never sent. -/
theorem redirect_never_committed :
    committedStatus (apiHandler notFoundOps emptyWriter) = some 404
    ∧ (committedHeaders (apiHandler notFoundOps emptyWriter)).lookup "Location"
      = none
    ∧ committedStatus (apiHandler (httpErrorOps "Unauthorized" 401) emptyWriter)
      = some 401
    ∧ (committedHeaders
          (apiHandler (httpErrorOps "Unauthorized" 401) emptyWriter)).lookup
        "Location" = none
    ∧ (apiHandler notFoundOps emptyWriter).liveHeaders.lookup "Location"
      = some "https://xkcd.com/random/" := by
  exact ⟨by decide, by decide, by decide, by decide, by decide⟩

/-- Claim C8 counterexample: `generateRequestID` discards the error returned
by the random source, so when the source errors and produces no bytes, the
identifier is the hex of the zero-filled buffer (`"00000000"`) and the call
proceeds normally through the pipeline — it does not fail closed with an
internal error. -/
theorem requestID_error_ignored :
    generateRequestID { bytes := [], err := some "entropy exhausted" }
      = "00000000"
    ∧ LoggingMiddleware { bytes := [], err := some "entropy exhausted" }
        (liftHandler (fun _ => { status := 200, headers := [], body := .text "ok" }))
        { method := "GET", path := "/health", authHeader := none,
          requestID := "" }
      = ({ status := 200, headers := [("X-Request-ID", "00000000")],
           body := .text "ok" }, [MEvent.businessRan]) := by
  exact ⟨by decide, by decide⟩

/-- Claim C8 (amended): correlation-identifier generation never fails the
call — the error from the random source is discarded, the identifier is the
hex rendering of whatever the 4-byte buffer holds (all zeros, hence
`"00000000"`, when the source produced nothing), and the logging middleware
always proceeds to the downstream handler with that identifier attached to
the request and the `X-Request-ID` response header. -/
theorem logging_always_proceeds (src : EntropySource)
    (f : Request → HttpResponse) (req : Request) :
    LoggingMiddleware src (liftHandler f) req
      = ({ f { req with requestID := generateRequestID src } with
            headers := ("X-Request-ID", generateRequestID src) ::
              (f { req with requestID := generateRequestID src }).headers },
         [MEvent.businessRan])
    ∧ ∀ e : String, generateRequestID { bytes := [], err := some e }
        = "00000000" :=
  ⟨rfl, fun _ => rfl⟩

end LightsHttp

